import Mathlib

/-!
# django-kickstart — verification of the project generator

Shallow embedding of the project-scaffolding pipeline of this repository:
`django_kickstart/generator.py` (name validation, secret-key generation,
generation plan, sandboxed tree writing), `django_kickstart/venv_utils.py`
(virtual-environment bootstrap) and the relevant part of
`django_kickstart/cli.py` (exit-status behaviour of the `create` command).

Filesystem paths are modelled as lists of segments of an absolute path
(`["home", "user", "proj"]` stands for `/home/user/proj`), and the
filesystem as an explicit record of created directories and written files
threaded through the operations.  Template rendering (`jinja2`) is an
external collaborator: the generator only feeds each template name to it
and writes the returned text, so renders are modelled by an arbitrary
function from payload to string.
-/

namespace DjangoKickstart

/-! ## Character classes of the validation regex `^[a-zA-Z_][a-zA-Z0-9_]*$` -/

/-- The character class `[a-zA-Z_]` of the first character of the
project-name regex in `ProjectGenerator.__init__`. -/
def isRegexFirst (c : Char) : Bool :=
  ('a' ≤ c && c ≤ 'z') || ('A' ≤ c && c ≤ 'Z') || c == '_'

/-- The character class `[a-zA-Z0-9_]` of the remaining characters of the
project-name regex. -/
def isRegexRest (c : Char) : Bool :=
  isRegexFirst c || ('0' ≤ c && c ≤ '9')

/-- Whether the whole string matches `[a-zA-Z_][a-zA-Z0-9_]*` (anchored on
both sides). -/
def matchesIdentRegex (s : String) : Bool :=
  match s.data with
  | [] => false
  | c :: cs => isRegexFirst c && cs.all isRegexRest

/-- `re.match(r'^[a-zA-Z_][a-zA-Z0-9_]*$', s)` as a Boolean.  Python's `$`
(without `re.MULTILINE`) also matches just before one trailing newline, so
the regex accepts `s` itself or `s` minus a single final `'\n'`. -/
def validProjectName (s : String) : Bool :=
  matchesIdentRegex s ||
    (s.data.getLast? == some '\n' && matchesIdentRegex ⟨s.data.dropLast⟩)

/-- The identifier grammar of the specification, §3: letters, digits,
underscore, not starting with a digit.  Stated from the spec's words; it
coincides with the anchored regex of the source. -/
def specIdentGrammar (s : String) : Bool :=
  match s.data with
  | [] => false
  | c :: cs => isRegexFirst c && cs.all isRegexRest

/-! ## Paths -/

/-- `a` is an initial segment of `b` (decidable, on any type with `BEq`). -/
def isInitialSegOf {α} [BEq α] : List α → List α → Bool
  | [], _ => true
  | _ :: _, [] => false
  | a :: as, b :: bs => a == b && isInitialSegOf as bs

/-- The character sequence of an absolute path: `'/'` before every
segment, as `str(pathlib.Path)` prints an absolute path. -/
def segChars : List String → List Char
  | [] => []
  | s :: rest => '/' :: s.data ++ segChars rest

/-- `str(path)` of an absolute path given by its segments; the root prints
as `"/"`. -/
def pathStr (segs : List String) : String :=
  if segs.isEmpty then "/" else ⟨segChars segs⟩

/-- Python's `str.startswith`. -/
def pyStartsWith (s pre : String) : Bool :=
  isInitialSegOf pre.data s.data

/-- `(base / rel).resolve()` on segment lists: `".."` pops the last
segment (staying at the root when there is none), `"."` and empty
segments disappear, every other segment is appended.  Symlinks are
assumed absent. -/
def resolveSegs : List String → List String → List String
  | acc, [] => acc
  | acc, s :: rest =>
    if s = ".." then resolveSegs acc.dropLast rest
    else if s = "." ∨ s = "" then resolveSegs acc rest
    else resolveSegs (acc ++ [s]) rest

/-- True descendant containment: the resolved path lies below `root`
(segment-wise).  This is the spec's notion for the Path Sandbox (§4.2). -/
def isDescendantOf (p root : List String) : Bool :=
  isInitialSegOf root p

/-! ## Filesystem model -/

/-- One written file: absolute path (segments), content, and whether the
executable permission bit was set on it. -/
structure FileEntry where
  path : List String
  content : String
  exec : Bool
  deriving Repr, DecidableEq

/-- Filesystem state: directories created and files written, in order.
A later write to the same path shadows an earlier one (`write_text`
overwrites). -/
structure FS where
  dirs : List (List String)
  files : List FileEntry
  deriving Repr, DecidableEq

/-- `Path.exists()` at the granularity the generator needs: the path was
created as a directory or written as a file. -/
def FS.existsPath (fs : FS) (p : List String) : Bool :=
  decide (p ∈ fs.dirs) || fs.files.any (fun e => e.path == p)

/-- The file currently at `p`: the most recent write wins. -/
def FS.fileEntry (fs : FS) (p : List String) : Option FileEntry :=
  fs.files.reverse.find? (fun e => e.path == p)

/-- All initial segments of a path: the directories
`mkdir(parents=True, exist_ok=True)` guarantees to exist afterwards. -/
def ancestorsOf (l : List String) : List (List String) :=
  (List.range (l.length + 1)).map fun n => l.take n

/-- Errors raised by the generator (`ValueError` for a bad name,
`FileExistsError` for an existing target, `ValueError` for path
traversal). -/
inductive GenError where
  | invalidName (name : String)
  | alreadyExists
  | pathEscape
  deriving Repr, DecidableEq

/-- `ProjectGenerator._write`: resolve `output_dir / rel`, reject the
write when `str(full_path)` does not start with `str(output_dir)`
(the code's containment check), otherwise create the parent directories
and write the file.  `write_text` never sets the executable bit. -/
def writeFile (out : List String) (fs : FS) (rel : List String)
    (content : String) : Except GenError FS :=
  let full := resolveSegs out rel
  if pyStartsWith (pathStr full) (pathStr out) then
    .ok { dirs := fs.dirs ++ ancestorsOf full.dropLast,
          files := fs.files ++ [⟨full, content, false⟩] }
  else
    .error .pathEscape

/-! ## The generator -/

/-- The fields of a constructed `ProjectGenerator`.  `cwd` holds the
segments of `os.getcwd()` (already resolved). -/
structure Generator where
  project_name : String
  project_type : String
  view_style : String
  database : String
  app_name : String
  with_docker : Bool
  cwd : List String
  deriving Repr, DecidableEq

/-- `self.output_dir = Path(os.getcwd()).resolve() / project_name`. -/
def outputDir (g : Generator) : List String :=
  g.cwd ++ [g.project_name]

/-- `ProjectGenerator.__init__`: the only validation performed is the
project-name regex; `project_type`, `view_style`, `database` and
`app_name` are stored as given, whatever strings they are. -/
def mkGenerator (project_name project_type view_style database app_name : String)
    (with_docker : Bool) (cwd : List String) : Except GenError Generator :=
  if validProjectName project_name then
    .ok ⟨project_name, project_type, view_style, database, app_name, with_docker, cwd⟩
  else
    .error (.invalidName project_name)

/-- What `_write` receives as content: the render of a named template
(`self._render(name)`) or a literal string (the two empty
`__init__.py`). -/
inductive Payload where
  | tpl (name : String)
  | lit (s : String)
  deriving Repr, DecidableEq

/-- The exact sequence of `_write` calls `generate` performs, in program
order: `_create_root_files`, `_create_project_config`, `_create_app`
(branching on `project_type`/`view_style`), `_create_docker_files` when
`with_docker` (plus `entrypoint.sh` when the database is postgresql), and
finally `_create_templates` and `_create_static_files` when the project
type is `mvp`.  Output paths are recorded as the interpolated pieces of
the `f`-string arguments of `_write` (name, literal, name, …);
`relString` rebuilds the exact `f`-string from the pieces, and
`writtenPath` below gives its `pathlib` interpretation — for slash-free
identifier names (the only ones the constructor's regex admits for the
project, and the CLI's fixed `core` for the app) each piece is exactly
one path component. -/
def plan (g : Generator) : List (Payload × List String) :=
  [(.tpl "manage.py.j2", ["manage.py"]),
   (.tpl "requirements.txt.j2", ["requirements.txt"]),
   (.tpl ".env.example.j2", [".env.example"]),
   (.tpl ".gitignore.j2", [".gitignore"])]
  ++ [(.lit "", [g.project_name, "__init__.py"]),
      (.tpl "project/settings.py.j2", [g.project_name, "settings.py"]),
      (.tpl "project/urls.py.j2", [g.project_name, "urls.py"]),
      (.tpl "project/wsgi.py.j2", [g.project_name, "wsgi.py"]),
      (.tpl "project/asgi.py.j2", [g.project_name, "asgi.py"])]
  ++ [(.lit "", [g.app_name, "__init__.py"]),
      (.tpl "app/admin.py.j2", [g.app_name, "admin.py"]),
      (.tpl "app/apps.py.j2", [g.app_name, "apps.py"]),
      (.tpl "app/models.py.j2", [g.app_name, "models.py"]),
      (.tpl "app/tests.py.j2", [g.app_name, "tests.py"])]
  ++ (if g.project_type = "api" then
        [(.tpl (if g.view_style = "cbv" then "app/views_api_cbv.py.j2"
                else "app/views_api_fbv.py.j2"), [g.app_name, "views.py"]),
         (.tpl "app/serializers.py.j2", [g.app_name, "serializers.py"]),
         (.tpl "app/urls_api.py.j2", [g.app_name, "urls.py"])]
      else
        [(.tpl (if g.view_style = "cbv" then "app/views_cbv.py.j2"
                else "app/views_fbv.py.j2"), [g.app_name, "views.py"]),
         (.tpl "app/urls_mvp.py.j2", [g.app_name, "urls.py"]),
         (.tpl "app/forms.py.j2", [g.app_name, "forms.py"])])
  ++ (if g.with_docker then
        [(.tpl "Dockerfile.j2", ["Dockerfile"]),
         (.tpl "docker-compose.yml.j2", ["docker-compose.yml"]),
         (.tpl ".dockerignore.j2", [".dockerignore"])]
        ++ (if g.database = "postgresql" then
              [(.tpl "entrypoint.sh.j2", ["entrypoint.sh"])]
            else [])
      else [])
  ++ (if g.project_type = "mvp" then
        [(.tpl "html/base.html.j2",
          [g.app_name, "templates", g.app_name, "base.html"]),
         (.tpl "html/home.html.j2",
          [g.app_name, "templates", g.app_name, "home.html"]),
         (.tpl "html/about.html.j2",
          [g.app_name, "templates", g.app_name, "about.html"]),
         (.tpl "static/style.css.j2", ["static", "css", "style.css"])]
      else [])

/-- The relative output paths of one generation run, in write order. -/
def planPaths (g : Generator) : List (List String) :=
  (plan g).map Prod.snd

/-- A path segment that `resolveSegs` neither pops nor drops: not `".."`,
not `"."`, not empty. -/
def goodSegB (s : String) : Bool :=
  !(s == ".." || s == "." || s == "")

/-- Every output path of the list consists of plain segments only. -/
def goodPathsB (l : List (Payload × List String)) : Bool :=
  l.all fun e => e.2.all goodSegB

/-- The argument string `_write` receives: the segments joined with `/`,
exactly as the source's `f`-strings build it (so an `app_name` that
itself contains `/` produces consecutive separators in the joined
string). -/
def relString : List String → String
  | [] => ""
  | [s] => s
  | s :: rest => s ++ "/" ++ relString rest

/-- Split a character list at every `'/'` (accumulator holds the current
segment reversed). -/
def splitSlashAux : List Char → List Char → List String
  | acc, [] => [⟨acc.reverse⟩]
  | acc, c :: rest =>
    if c = '/' then ⟨acc.reverse⟩ :: splitSlashAux [] rest
    else splitSlashAux (c :: acc) rest

/-- Split a string at every `/`, keeping empty parts — how `pathlib`
decomposes a relative path string into components before discarding the
empty and `.` ones (which `resolveSegs` drops). -/
def splitSlash (s : String) : List String := splitSlashAux [] s.data

/-- The absolute path `_write` actually writes for a plan entry: the
`f`-string (segments joined with `/`), decomposed at `/` as `pathlib`
parses it and resolved against `output_dir`.  This is the faithful path
semantics for arbitrary name strings not beginning with `/` (a leading
`/` would make the operand absolute and replace the root); on
slash-free identifier names it coincides with appending the segments. -/
def writtenPath (g : Generator) (rel : List String) : List String :=
  resolveSegs (outputDir g) (splitSlash (relString rel))

/-- The absolute paths one generation run writes, in write order. -/
def writtenPaths (g : Generator) : List (List String) :=
  (planPaths g).map (writtenPath g)

/-- A name string that stays one path component under the `f`-string
joins: a plain segment (`goodSegB`) containing no `/`. -/
def segClean (s : String) : Bool :=
  goodSegB s && !(s.data.contains '/')

/-- A nonempty output path all of whose segments stay single
components. -/
def cleanPathB (rel : List String) : Bool :=
  !rel.isEmpty && rel.all segClean

/-- Execute the `_write` calls of a plan in order, stopping at the first
error (an uncaught exception aborts `generate`). -/
def runPlan (render : Payload → String) (out : List String) :
    FS → List (Payload × List String) → Except GenError FS
  | fs, [] => .ok fs
  | fs, (pl, rel) :: rest =>
    match writeFile out fs rel (render pl) with
    | .ok fs' => runPlan render out fs' rest
    | .error e => .error e

/-- `ProjectGenerator.generate`: raise `FileExistsError` when
`self.output_dir.exists()`, otherwise perform all writes of the plan. -/
def generate (render : Payload → String) (fs : FS) (g : Generator) :
    Except GenError FS :=
  if FS.existsPath fs (outputDir g) then .error .alreadyExists
  else runPlan render (outputDir g) fs (plan g)

/-- Constructing the generator and running it: `ProjectGenerator(...)`
followed by `.generate()`.  A name rejected by the constructor never
reaches any filesystem operation. -/
def createProject (render : Payload → String) (fs : FS)
    (project_name project_type view_style database app_name : String)
    (with_docker : Bool) (cwd : List String) : Except GenError FS :=
  match mkGenerator project_name project_type view_style database app_name
      with_docker cwd with
  | .error e => .error e
  | .ok g => generate render fs g

/-! ## The spec's selection rule (§4.3), for the refinement claim -/

/-- Modelled from the spec, §4.3 (`select_plan`), clause by clause, for
comparison with `plan`: always the root metadata files and the project
configuration package; always one application module set; one views
template and one URL-routing template chosen among four mutually
exclusive `(project_type, view_style)` variants, a serialization module
for API variants and a form-definitions module for MVP variants; three
HTML documents and one stylesheet when `project_type = mvp`; the
container files when containerization is on, plus the entrypoint shell
script when the database is additionally postgresql.  Template
identifiers and concrete relative paths are those of the repository's
template catalog (§4.2: the catalog's own path table). -/
def specSelectPlan (pt vs db : String) (dk : Bool) (p a : String) :
    List (Payload × List String) :=
  [(.tpl "requirements.txt.j2", ["requirements.txt"]),
   (.tpl ".gitignore.j2", [".gitignore"]),
   (.tpl ".env.example.j2", [".env.example"]),
   (.tpl "manage.py.j2", ["manage.py"])]
  ++ [(.lit "", [p, "__init__.py"]),
      (.tpl "project/settings.py.j2", [p, "settings.py"]),
      (.tpl "project/urls.py.j2", [p, "urls.py"]),
      (.tpl "project/wsgi.py.j2", [p, "wsgi.py"]),
      (.tpl "project/asgi.py.j2", [p, "asgi.py"])]
  ++ [(.lit "", [a, "__init__.py"]),
      (.tpl "app/admin.py.j2", [a, "admin.py"]),
      (.tpl "app/apps.py.j2", [a, "apps.py"]),
      (.tpl "app/models.py.j2", [a, "models.py"]),
      (.tpl "app/tests.py.j2", [a, "tests.py"])]
  ++ (if pt = "api" ∧ vs = "cbv" then
        [(.tpl "app/views_api_cbv.py.j2", [a, "views.py"]),
         (.tpl "app/urls_api.py.j2", [a, "urls.py"])]
      else if pt = "api" ∧ vs = "fbv" then
        [(.tpl "app/views_api_fbv.py.j2", [a, "views.py"]),
         (.tpl "app/urls_api.py.j2", [a, "urls.py"])]
      else if pt = "mvp" ∧ vs = "cbv" then
        [(.tpl "app/views_cbv.py.j2", [a, "views.py"]),
         (.tpl "app/urls_mvp.py.j2", [a, "urls.py"])]
      else
        [(.tpl "app/views_fbv.py.j2", [a, "views.py"]),
         (.tpl "app/urls_mvp.py.j2", [a, "urls.py"])])
  ++ (if pt = "api" then [(.tpl "app/serializers.py.j2", [a, "serializers.py"])]
      else [(.tpl "app/forms.py.j2", [a, "forms.py"])])
  ++ (if pt = "mvp" then
        [(.tpl "html/base.html.j2", [a, "templates", a, "base.html"]),
         (.tpl "html/home.html.j2", [a, "templates", a, "home.html"]),
         (.tpl "html/about.html.j2", [a, "templates", a, "about.html"]),
         (.tpl "static/style.css.j2", ["static", "css", "style.css"])]
      else [])
  ++ (if dk then
        [(.tpl "Dockerfile.j2", ["Dockerfile"]),
         (.tpl "docker-compose.yml.j2", ["docker-compose.yml"]),
         (.tpl ".dockerignore.j2", [".dockerignore"])]
        ++ (if db = "postgresql" then [(.tpl "entrypoint.sh.j2", ["entrypoint.sh"])]
            else [])
      else [])

/-! ## Secret key and generation context -/

/-- Python `string.ascii_lowercase`. -/
def asciiLowercase : String := "abcdefghijklmnopqrstuvwxyz"

/-- Python `string.ascii_uppercase`. -/
def asciiUppercase : String := "ABCDEFGHIJKLMNOPQRSTUVWXYZ"

/-- Python `string.ascii_letters`. -/
def asciiLetters : String := asciiLowercase ++ asciiUppercase

/-- Python `string.digits`. -/
def digitChars : String := "0123456789"

/-- Python `string.punctuation` (32 ASCII punctuation characters). -/
def punctuationChars : String :=
  "!\x22#$%&\x27()*+,-./:;<=>?@[\x5c]^_\x60\x7b|\x7d~"

/-- The alphabet `string.ascii_letters + string.digits +
string.punctuation` the secret key is drawn from. -/
def secretAlphabet : List Char :=
  (asciiLetters ++ digitChars ++ punctuationChars).data

/-- `''.join(secrets.choice(alphabet) for _ in range(50))`, with the
sequence of cryptographically random choices abstracted as a function
`draw` from the position to the chosen alphabet index. -/
def genSecretKey (draw : Nat → Fin secretAlphabet.length) : String :=
  ⟨(List.range 50).map fun i => secretAlphabet.get (draw i)⟩

/-- The template context built in `ProjectGenerator.__init__`. -/
structure GenContext where
  project_name : String
  app_name : String
  project_type : String
  view_style : String
  database : String
  secret_key : String
  is_api : Bool
  is_mvp : Bool
  is_cbv : Bool
  is_fbv : Bool
  is_postgresql : Bool
  is_sqlite : Bool
  is_docker : Bool
  deriving Repr, DecidableEq

/-- `self.context = {...}` of `ProjectGenerator.__init__`. -/
def buildContext (g : Generator) (draw : Nat → Fin secretAlphabet.length) :
    GenContext :=
  { project_name := g.project_name
    app_name := g.app_name
    project_type := g.project_type
    view_style := g.view_style
    database := g.database
    secret_key := genSecretKey draw
    is_api := g.project_type == "api"
    is_mvp := g.project_type == "mvp"
    is_cbv := g.view_style == "cbv"
    is_fbv := g.view_style == "fbv"
    is_postgresql := g.database == "postgresql"
    is_sqlite := g.database == "sqlite"
    is_docker := g.with_docker }

/-! ## Virtual-environment bootstrap (`venv_utils.create_virtualenv`) -/

/-- The outcomes of the external effects `create_virtualenv` depends on:
whether `python -m venv` succeeds, whether `pip` exists inside the venv,
whether `requirements.txt` exists, and whether `pip install` succeeds. -/
structure VenvEnv where
  venvCmdOk : Bool
  pipExists : Bool
  reqExists : Bool
  pipInstallOk : Bool
  deriving Repr, DecidableEq

/-- What one call to `create_virtualenv` did: its return value, whether
the dependency install ran to success, and the messages echoed. -/
structure VenvResult where
  returned : Bool
  installed : Bool
  msgs : List String
  deriving Repr, DecidableEq

/-- `venv_utils.create_virtualenv`, branch for branch.  When
`requirements.txt` is missing it echoes a warning, skips the install
entirely and still returns `True`. -/
def create_virtualenv (env : VenvEnv) : VenvResult :=
  let msgs := ["Creating virtual environment..."]
  if !env.venvCmdOk then
    { returned := false, installed := false
      msgs := msgs ++ ["Failed to create virtual environment",
                       "Your project files are fine"] }
  else
    let msgs := msgs ++ ["Virtual environment created"]
    if !env.pipExists then
      { returned := false, installed := false
        msgs := msgs ++ ["pip not found in venv"] }
    else if !env.reqExists then
      { returned := true, installed := false
        msgs := msgs ++
          ["requirements.txt not found - skipping dependency install."] }
    else if !env.pipInstallOk then
      { returned := false, installed := false
        msgs := msgs ++ ["Failed to install dependencies"] }
    else
      { returned := true, installed := true
        msgs := msgs ++ ["Dependencies installed successfully"] }

/-! ## CLI exit behaviour (`cli.create`, after the generator ran) -/

/-- The tail of `cli.create` from the `generator.generate()` call on:
a `FileExistsError`/`ValueError` from `generate` exits with status 1;
on success the venv step runs unless `--no-venv`, its messages are
echoed, and the command prints the success banner and returns normally
(exit status 0) whatever `create_virtualenv` returned. -/
def cliAfterGenerate (genResult : Except GenError FS) (noVenv : Bool)
    (env : VenvEnv) : Nat × List String :=
  match genResult with
  | .error _ => (1, ["generation failed"])
  | .ok _ =>
    let (venv_created, venvMsgs) :=
      if noVenv then (false, [])
      else ((create_virtualenv env).returned, (create_virtualenv env).msgs)
    (0, venvMsgs
        ++ ["Project created successfully!"]
        ++ (if venv_created then ["activate the venv"]
            else ["python -m venv venv", "pip install -r requirements.txt"]))

/-- A generator with a `project_type` outside `{mvp, api}`, as the
constructor accepts it (claim C9's example input). -/
def gAPI : Generator := ⟨"proj", "API", "fbv", "sqlite", "core", false, ["home"]⟩

/-- A concrete sequence of random draws (all index 0). -/
def drawA : Nat → Fin secretAlphabet.length := fun _ => ⟨0, by decide⟩

/-- A concrete sequence of random draws (all index 1). -/
def drawB : Nat → Fin secretAlphabet.length := fun _ => ⟨1, by decide⟩

/-! ## Helper lemmas -/

theorem isInitialSegOf_append {α} [BEq α] [LawfulBEq α] :
    ∀ (l m : List α), isInitialSegOf l (l ++ m) = true := by
  intro l m
  induction l with
  | nil => rfl
  | cons a as ih => simp [isInitialSegOf, ih]

theorem isInitialSegOf_iff_append {α} [BEq α] [LawfulBEq α] :
    ∀ (l b : List α), isInitialSegOf l b = true ↔ ∃ t, b = l ++ t := by
  intro l
  induction l with
  | nil => intro b; simp [isInitialSegOf]
  | cons a as ih =>
    intro b
    cases b with
    | nil => simp [isInitialSegOf]
    | cons x xs =>
      simp [isInitialSegOf, ih xs]
      exact fun t ht => ⟨Eq.symm, Eq.symm⟩

theorem segChars_append : ∀ (xs ys : List String),
    segChars (xs ++ ys) = segChars xs ++ segChars ys := by
  intro xs ys
  induction xs with
  | nil => rfl
  | cons s rest ih => simp [segChars, ih]

theorem pyStartsWith_pathStr_append (xs ys : List String) (h : xs ≠ []) :
    pyStartsWith (pathStr (xs ++ ys)) (pathStr xs) = true := by
  unfold pathStr pyStartsWith
  rw [if_neg, if_neg]
  · show isInitialSegOf (segChars xs) (segChars (xs ++ ys)) = true
    rw [segChars_append]
    exact isInitialSegOf_append _ _
  · simp [h]
  · simp [h]

theorem resolveSegs_of_good : ∀ (rel : List String) (acc : List String),
    rel.all goodSegB = true → resolveSegs acc rel = acc ++ rel := by
  intro rel
  induction rel with
  | nil => intro acc _; simp [resolveSegs]
  | cons s rest ih =>
    intro acc h
    simp only [List.all_cons, Bool.and_eq_true] at h
    obtain ⟨hs, hrest⟩ := h
    simp only [goodSegB, Bool.not_eq_true', Bool.or_eq_false_iff,
      beq_eq_false_iff_ne, ne_eq] at hs
    obtain ⟨⟨h1, h2⟩, h3⟩ := hs
    unfold resolveSegs
    rw [if_neg h1, if_neg (by simp [h2, h3])]
    rw [ih (acc ++ [s]) hrest]
    simp

theorem valid_goodSeg (s : String) (h : validProjectName s = true) :
    goodSegB s = true := by
  unfold goodSegB
  rcases eq_or_ne s ".." with rfl | h1
  · exact absurd h (by decide)
  rcases eq_or_ne s "." with rfl | h2
  · exact absurd h (by decide)
  rcases eq_or_ne s "" with rfl | h3
  · exact absurd h (by decide)
  simp [h1, h2, h3]

theorem plan_good (g : Generator) (hp : goodSegB g.project_name = true)
    (ha : goodSegB g.app_name = true) : goodPathsB (plan g) = true := by
  by_cases h1 : g.project_type = "api" <;> by_cases h2 : g.project_type = "mvp" <;>
    by_cases h3 : g.with_docker <;> by_cases h4 : g.database = "postgresql" <;>
    simp [plan, goodPathsB, h1, h2, h3, h4, hp, ha] <;> decide

theorem writeFile_ok_of_good (out : List String) (hout : out ≠ []) (fs : FS)
    (rel : List String) (hrel : rel.all goodSegB = true) (content : String) :
    writeFile out fs rel content =
      .ok { dirs := fs.dirs ++ ancestorsOf (out ++ rel).dropLast,
            files := fs.files ++ [⟨out ++ rel, content, false⟩] } := by
  unfold writeFile
  rw [resolveSegs_of_good rel out hrel]
  rw [if_pos (pyStartsWith_pathStr_append out rel hout)]

theorem self_mem_ancestorsOf (l : List String) : l ∈ ancestorsOf l := by
  unfold ancestorsOf
  refine List.mem_map.mpr ⟨l.length, ?_, List.take_length l⟩
  exact List.mem_range.mpr (Nat.lt_succ_self _)

theorem runPlan_ok_of_good (render : Payload → String) (out : List String)
    (hout : out ≠ []) :
    ∀ entries : List (Payload × List String), goodPathsB entries = true →
      ∀ fs : FS, ∃ fs', runPlan render out fs entries = .ok fs' ∧
        (∀ d ∈ fs.dirs, d ∈ fs'.dirs) ∧
        (∀ e ∈ entries, ∀ d ∈ ancestorsOf (out ++ e.2).dropLast, d ∈ fs'.dirs) := by
  intro entries
  induction entries with
  | nil =>
    intro _ fs
    exact ⟨fs, rfl, fun d hd => hd, by simp⟩
  | cons e rest ih =>
    intro hgood fs
    obtain ⟨pl, rel⟩ := e
    simp only [goodPathsB, List.all_cons, Bool.and_eq_true] at hgood
    obtain ⟨hrel, hrest⟩ := hgood
    obtain ⟨fs', hrun, hmono, hanc⟩ := ih hrest
      { dirs := fs.dirs ++ ancestorsOf (out ++ rel).dropLast,
        files := fs.files ++ [⟨out ++ rel, render pl, false⟩] }
    refine ⟨fs', ?_, ?_, ?_⟩
    · simp only [runPlan, writeFile_ok_of_good out hout fs rel hrel (render pl)]
      exact hrun
    · intro d hd
      exact hmono d (by simp [hd])
    · intro e' he' d hd
      rcases List.mem_cons.mp he' with rfl | he'
      · exact hmono d (by simp; exact Or.inr hd)
      · exact hanc e' he' d hd

theorem manage_mem_plan (g : Generator) :
    (Payload.tpl "manage.py.j2", ["manage.py"]) ∈ plan g := by
  simp [plan]

theorem isDigit_not_regexFirst (c : Char) (h : c.isDigit = true) :
    isRegexFirst c = false := by
  simp [Char.isDigit, Char.le_def, UInt32.le_def, Fin.le_def, BitVec.le_def,
    BitVec.lt_def] at h
  simp [isRegexFirst, Char.le_def, UInt32.le_def, Fin.le_def, BitVec.le_def,
    BitVec.lt_def, Char.ext_iff, UInt32.ext_iff, Fin.ext_iff, UInt32.toNat,
    UInt32.size]
  omega

theorem regexRest_false_of_first_false (c : Char) (h : isRegexRest c = false) :
    isRegexFirst c = false := by
  simp [isRegexRest, Bool.or_eq_false_iff] at h
  exact h.1

theorem matchesIdentRegex_false_of_badChar (s : String) (c : Char)
    (hc : c ∈ s.data) (hbad : isRegexRest c = false) :
    matchesIdentRegex s = false := by
  rcases hl : s.data with _ | ⟨h0, t⟩
  · simp [matchesIdentRegex, hl]
  · rw [hl] at hc
    simp only [matchesIdentRegex, hl]
    rcases List.mem_cons.mp hc with rfl | hct
    · simp [regexRest_false_of_first_false c hbad]
    · rw [Bool.and_eq_false_iff]
      right
      rw [List.all_eq_false]
      exact ⟨c, hct, by simp [hbad]⟩

theorem mem_dropLast_of_ne_getLast {l : List Char} {a b : Char}
    (ha : a ∈ l) (hb : l.getLast? = some b) (hne : a ≠ b) : a ∈ l.dropLast := by
  have hnil : l ≠ [] := by rintro rfl; simp at hb
  have hdec := List.dropLast_append_getLast hnil
  rw [List.getLast?_eq_getLast l hnil] at hb
  injection hb with hb
  rw [← hdec] at ha
  rcases List.mem_append.mp ha with h | h
  · exact h
  · rw [List.mem_singleton] at h
    exact absurd (h.trans hb) hne

theorem validProjectName_false_of_badChar (s : String) (c : Char)
    (hc : c ∈ s.data) (hbad : isRegexRest c = false) (hnl : c ≠ '\n') :
    validProjectName s = false := by
  unfold validProjectName
  rw [Bool.or_eq_false_iff]
  refine ⟨matchesIdentRegex_false_of_badChar s c hc hbad, ?_⟩
  rcases hlast : s.data.getLast? with _ | b
  · simp
  rcases eq_or_ne b '\n' with rfl | hbn
  · rw [Bool.and_eq_false_iff]
    right
    exact matchesIdentRegex_false_of_badChar ⟨s.data.dropLast⟩ c
      (mem_dropLast_of_ne_getLast hc hlast hnl) hbad
  · simp [hbn]

theorem splitSlashAux_no_slash : ∀ (a : List Char), (∀ c ∈ a, c ≠ '/') →
    ∀ (acc rest : List Char),
      splitSlashAux acc (a ++ rest) = splitSlashAux (a.reverse ++ acc) rest := by
  intro a
  induction a with
  | nil => intro _ acc rest; simp
  | cons c a' ih =>
    intro h acc rest
    have hc : c ≠ '/' := h c (by simp)
    have h1 : splitSlashAux acc ((c :: a') ++ rest) =
        splitSlashAux (c :: acc) (a' ++ rest) := by
      simp [splitSlashAux, hc]
    rw [h1, ih (fun x hx => h x (by simp [hx])) (c :: acc) rest]
    congr 1
    simp

theorem splitSlash_relString : ∀ (segs : List String), segs ≠ [] →
    (∀ s ∈ segs, '/' ∉ s.data) → splitSlash (relString segs) = segs := by
  intro segs
  induction segs with
  | nil => intro h; exact absurd rfl h
  | cons s rest ih =>
    intro _ hns
    have hs : ∀ c ∈ s.data, c ≠ '/' := by
      intro c hc
      rintro rfl
      exact hns s (by simp) hc
    cases rest with
    | nil =>
      show splitSlashAux [] s.data = [s]
      have := splitSlashAux_no_slash s.data hs [] []
      simp only [List.append_nil] at this
      rw [this]
      simp [splitSlashAux]
    | cons y rest' =>
      show splitSlashAux [] (relString (s :: y :: rest')).data = s :: y :: rest'
      have hdata : (relString (s :: y :: rest')).data =
          s.data ++ '/' :: (relString (y :: rest')).data := by
        show (s ++ "/" ++ relString (y :: rest')).data = _
        simp [String.data_append]
      rw [hdata]
      rw [splitSlashAux_no_slash s.data hs [] ('/' :: (relString (y :: rest')).data)]
      have hstep : splitSlashAux (s.data.reverse ++ []) ('/' :: (relString (y :: rest')).data) =
          (⟨(s.data.reverse ++ []).reverse⟩ : String) ::
            splitSlashAux [] (relString (y :: rest')).data := by
        simp [splitSlashAux]
      rw [hstep]
      rw [show splitSlashAux [] (relString (y :: rest')).data =
            splitSlash (relString (y :: rest')) from rfl]
      rw [ih (by simp) (fun t ht => hns t (by simp [ht]))]
      simp only [List.append_nil, List.reverse_reverse]

theorem valid_segClean (s : String) (h : validProjectName s = true) :
    segClean s = true := by
  unfold segClean
  rw [valid_goodSeg s h]
  simp only [Bool.true_and, Bool.not_eq_true']
  rw [← Bool.not_eq_true]
  intro hcon
  have hmem : '/' ∈ s.data := List.mem_of_elem_eq_true hcon
  exact absurd h (by simp [validProjectName_false_of_badChar s '/' hmem
    (by decide) (by decide)])

theorem plan_clean (g : Generator) (hp : segClean g.project_name = true)
    (ha : segClean g.app_name = true) :
    (planPaths g).all cleanPathB = true := by
  by_cases h1 : g.project_type = "api" <;> by_cases h2 : g.project_type = "mvp" <;>
    by_cases h3 : g.with_docker <;> by_cases h4 : g.database = "postgresql" <;>
    simp [planPaths, plan, cleanPathB, h1, h2, h3, h4, hp, ha] <;> decide

theorem writtenPath_eq_of_clean (g : Generator) (rel : List String)
    (h : cleanPathB rel = true) : writtenPath g rel = outputDir g ++ rel := by
  simp only [cleanPathB, Bool.and_eq_true, Bool.not_eq_true'] at h
  obtain ⟨hne, hall⟩ := h
  have hgood : rel.all goodSegB = true := by
    rw [List.all_eq_true] at hall ⊢
    intro s hs
    have := hall s hs
    simp only [segClean, Bool.and_eq_true] at this
    exact this.1
  have hnosl : ∀ s ∈ rel, '/' ∉ s.data := by
    intro s hs hmem
    have := (List.all_eq_true.mp hall) s hs
    simp only [segClean, Bool.and_eq_true, Bool.not_eq_true'] at this
    have h2 : List.elem '/' s.data = true := List.elem_eq_true_of_mem hmem
    have h3 := this.2
    rw [show s.data.contains '/' = List.elem '/' s.data from rfl, h2] at h3
    exact absurd h3 (by simp)
  unfold writtenPath
  rw [splitSlash_relString rel (by simpa [List.isEmpty_iff] using hne) hnosl]
  exact resolveSegs_of_good rel _ hgood

theorem planPaths_nodup_of_ne (g : Generator)
    (hne : g.project_name ≠ g.app_name) : (planPaths g).Nodup := by
  by_cases h1 : g.project_type = "api" <;> by_cases h2 : g.project_type = "mvp" <;>
    by_cases h3 : g.with_docker <;> by_cases h4 : g.database = "postgresql" <;>
    simp [planPaths, plan, h1, h2, h3, h4, List.nodup_cons, hne, Ne.symm hne]

theorem validProjectName_false_of_leadingDigit (s : String) (c : Char)
    (t : List Char) (hs : s.data = c :: t) (hd : c.isDigit = true) :
    validProjectName s = false := by
  have hfirst : isRegexFirst c = false := isDigit_not_regexFirst c hd
  have hcn : c ≠ '\n' := by rintro rfl; exact absurd hd (by decide)
  unfold validProjectName
  rw [Bool.or_eq_false_iff]
  constructor
  · simp [matchesIdentRegex, hs, hfirst]
  · cases t with
    | nil => simp [hs, hcn]
    | cons y ys =>
      rw [Bool.and_eq_false_iff]
      right
      rw [hs]
      simp [List.dropLast, matchesIdentRegex, hfirst]

/-! ## Claims -/

/-- Claim C1, counterexample.  The claim states that every relative path
whose canonicalized resolution is not a descendant of `output_dir` is
rejected.  It is false: under root `/r/proj`, the relative path
`../projX/f` resolves to `/r/projX/f`, which is not a descendant of the
root, yet `str.startswith` accepts it (sibling whose name extends the
root's string) and `_write` performs the write. -/
theorem c1_counterexample :
    isDescendantOf (resolveSegs ["r", "proj"] ["..", "projX", "f"]) ["r", "proj"] = false ∧
    (writeFile ["r", "proj"] ⟨[], []⟩ ["..", "projX", "f"] "x").toOption.map FS.files =
      some [⟨["r", "projX", "f"], "x", false⟩] := by
  decide

/-- Claim C1 as amended.  `_write` fails with the path-escape error and
performs no write exactly when `str(full_path)` does not start with
`str(output_dir)` — a string-prefix containment on the canonicalized
path, not true descendant containment.  Every true descendant passes the
check, and `../../etc/passwd`-style traversal (whose resolution leaves
the string prefix) is rejected; but a non-descendant sibling whose
string extends the root's string is wrongly admitted (see the
counterexample). -/
theorem c1_amended :
    (∀ out fs rel content,
       pyStartsWith (pathStr (resolveSegs out rel)) (pathStr out) = false →
       writeFile out fs rel content = .error .pathEscape) ∧
    (∀ out fs rel content fs', writeFile out fs rel content = .ok fs' →
       pyStartsWith (pathStr (resolveSegs out rel)) (pathStr out) = true) ∧
    (∀ out fs rel content, out ≠ [] →
       isDescendantOf (resolveSegs out rel) out = true →
       ∃ fs', writeFile out fs rel content = .ok fs') ∧
    writeFile ["home", "user", "proj"] ⟨[], []⟩ ["..", "..", "etc", "passwd"] "x" =
      .error .pathEscape := by
  refine ⟨?_, ?_, ?_, by rfl⟩
  · intro out fs rel content h
    simp [writeFile, h]
  · intro out fs rel content fs' h
    by_contra hc
    rw [Bool.not_eq_true] at hc
    simp [writeFile, hc] at h
  · intro out fs rel content hout hdesc
    obtain ⟨t, ht⟩ := (isInitialSegOf_iff_append out (resolveSegs out rel)).mp hdesc
    have hcheck : pyStartsWith (pathStr (resolveSegs out rel)) (pathStr out) = true := by
      rw [ht]
      exact pyStartsWith_pathStr_append out t hout
    exact ⟨{ dirs := fs.dirs ++ ancestorsOf (resolveSegs out rel).dropLast,
             files := fs.files ++ [⟨resolveSegs out rel, content, false⟩] },
           by simp [writeFile, hcheck]⟩

/-- Witness for the amended claim C1: a traversal that leaves the string
prefix is rejected with the path-escape error. -/
theorem c1_amended_witness :
    writeFile ["home"] ⟨[], []⟩ ["..", "..", "x"] "c" = .error .pathEscape :=
  c1_amended.1 ["home"] ⟨[], []⟩ ["..", "..", "x"] "c" (by decide)

/-- Claim C2.  For each of the 16 `(project_type, view_style, database,
with_containerization)` combinations, the write sequence of `generate`
is (as a multiset) exactly the file set of the selection rule of spec
§4.3, here `specSelectPlan`: one views template and one URL-routing
template out of four mutually exclusive variants, a serialization module
for API and a form-definitions module for MVP, three HTML documents and
a stylesheet for MVP, the container files — plus the entrypoint script
when the database is postgresql — under containerization.  Stated with
the default configuration/app package names. -/
theorem c2_plan_matches_spec_rule :
    ∀ pt ∈ ["mvp", "api"], ∀ vs ∈ ["fbv", "cbv"],
    ∀ db ∈ ["sqlite", "postgresql"], ∀ dk ∈ [false, true],
      (plan ⟨"proj", pt, vs, db, "core", dk, ["home"]⟩).Perm
        (specSelectPlan pt vs db dk "proj" "core") := by
  decide

/-- Witness for claim C2 at the example scenario of spec §8 (mvp, fbv,
sqlite, no containerization). -/
theorem c2_witness :
    (plan ⟨"proj", "mvp", "fbv", "sqlite", "core", false, ["home"]⟩).Perm
      (specSelectPlan "mvp" "fbv" "sqlite" false "proj" "core") :=
  c2_plan_matches_spec_rule "mvp" (by decide) "fbv" (by decide)
    "sqlite" (by decide) false (by decide)

/-- Claim C3, counterexample.  The claim states that with
containerization and postgresql the generated `entrypoint.sh` has the
executable permission bit explicitly set.  Running the full generation
for such a spec shows the file is written with no executable bit: the
code never calls any permission-setting operation (its own comment
delegates `chmod +x` to the user or the Dockerfile). -/
theorem c3_counterexample :
    (generate (fun _ => "") ⟨[], []⟩
        ⟨"proj", "mvp", "fbv", "postgresql", "core", true, ["home"]⟩).toOption.bind
      (fun fs => fs.fileEntry ["home", "proj", "entrypoint.sh"]) =
    some ⟨["home", "proj", "entrypoint.sh"], "", false⟩ := by
  decide

/-- Claim C3 as amended.  For every spec with containerization and
postgresql, the plan does include the entrypoint shell script, but no
write of the generator ever sets the executable permission bit: every
file a successful `_write` adds has the bit clear. -/
theorem c3_amended (g : Generator) (hd : g.with_docker = true)
    (hp : g.database = "postgresql") :
    ((Payload.tpl "entrypoint.sh.j2", ["entrypoint.sh"]) ∈ plan g) ∧
    (∀ out fs rel content fs', writeFile out fs rel content = .ok fs' →
       ∀ e ∈ fs'.files, e ∈ fs.files ∨ e.exec = false) := by
  constructor
  · simp [plan, hd, hp]
  · intro out fs rel content fs' h e he
    simp only [writeFile] at h
    split at h
    · injection h with h
      subst h
      simp only [List.mem_append] at he
      rcases he with he | he
      · exact Or.inl he
      · right
        simp at he
        rw [he]
    · exact absurd h (by simp)

/-- Witness for the amended claim C3 at a concrete containerized
postgresql spec. -/
theorem c3_amended_witness :
    ((Payload.tpl "entrypoint.sh.j2", ["entrypoint.sh"]) ∈
       plan ⟨"proj", "api", "cbv", "postgresql", "core", true, ["home"]⟩) ∧
    (∀ out fs rel content fs', writeFile out fs rel content = .ok fs' →
       ∀ e ∈ fs'.files, e ∈ fs.files ∨ e.exec = false) :=
  c3_amended ⟨"proj", "api", "cbv", "postgresql", "core", true, ["home"]⟩ rfl rfl

/-- Claim C4, counterexample.  The claim states the output paths of one
plan are pairwise distinct for every choice of `project_name` and
`app_name`.  Two refutations: with `project_name = app_name = "core"`
(the default app name) the configuration package and the application
package collide — `core/urls.py` is written twice in one run, both at
the relative-path level and as the resolved absolute path; and even
distinct name strings collide once `pathlib` collapses the `f`-strings:
with `project_name = "core"` and `app_name = "core/"` the app paths
(`core//urls.py` etc.) resolve onto the configuration package's, so the
resolved `core/urls.py` is again written twice. -/
theorem c4_counterexample :
    (¬ (planPaths ⟨"core", "mvp", "fbv", "sqlite", "core", false, ["home"]⟩).Nodup ∧
     (planPaths ⟨"core", "mvp", "fbv", "sqlite", "core", false, ["home"]⟩).count
       ["core", "urls.py"] = 2) ∧
    (¬ (writtenPaths ⟨"core", "mvp", "fbv", "sqlite", "core", false, ["home"]⟩).Nodup ∧
     (writtenPaths ⟨"core", "mvp", "fbv", "sqlite", "core", false, ["home"]⟩).count
       ["home", "core", "core", "urls.py"] = 2) ∧
    ("core" ≠ "core/" ∧
     ¬ (writtenPaths ⟨"core", "mvp", "fbv", "sqlite", "core/", false, ["home"]⟩).Nodup ∧
     (writtenPaths ⟨"core", "mvp", "fbv", "sqlite", "core/", false, ["home"]⟩).count
       ["home", "core", "core", "urls.py"] = 2) := by
  decide

/-- Claim C4 as amended.  Whenever `project_name` and `app_name` are both
identifier strings (the regex the constructor enforces on the project
name; the CLI always passes the identifier `core` as app name) and
`project_name ≠ app_name`, the absolute paths one run actually writes —
the `f`-strings interpreted by `pathlib` via `writtenPath` — are
pairwise distinct, for every project type, view style, database and
containerization choice.  Equal names, or an `app_name` whose string
contains path separators or collapsible segments, produce collisions
(see the counterexample). -/
theorem c4_amended (g : Generator)
    (hp : validProjectName g.project_name = true)
    (ha : validProjectName g.app_name = true)
    (hne : g.project_name ≠ g.app_name) :
    (writtenPaths g).Nodup := by
  have hclean := plan_clean g (valid_segClean _ hp) (valid_segClean _ ha)
  have hmap : writtenPaths g = (planPaths g).map (fun rel => outputDir g ++ rel) := by
    unfold writtenPaths
    apply List.map_congr_left
    intro rel hrel
    exact writtenPath_eq_of_clean g rel ((List.all_eq_true.mp hclean) rel hrel)
  rw [hmap]
  exact List.Nodup.map (fun a b hab => List.append_cancel_left hab)
    (planPaths_nodup_of_ne g hne)

/-- Witness for the amended claim C4 at distinct identifier project and
app names. -/
theorem c4_amended_witness :
    (writtenPaths ⟨"blog", "mvp", "fbv", "sqlite", "core", false, ["home"]⟩).Nodup :=
  c4_amended ⟨"blog", "mvp", "fbv", "sqlite", "core", false, ["home"]⟩
    (by decide) (by decide) (by decide)

/-- Claim C5.  Every project name of the claim's invalid families — the
empty string, a leading digit, containing `/`, containing `..` — is
rejected by the constructor's regex, so `createProject` fails with the
invalid-name error before any filesystem operation (the error return
carries no filesystem state: no entry is created); and every name
matching the identifier grammar of the spec passes the validation and
the constructor succeeds. -/
theorem c5_name_validation :
    (∀ name : String,
       (name = "" ∨ (∃ c t, name.data = c :: t ∧ c.isDigit = true) ∨
        '/' ∈ name.data ∨ (∃ l r, name.data = l ++ '.' :: '.' :: r)) →
       ∀ render fs project_type view_style database app_name with_docker cwd,
         createProject render fs name project_type view_style database app_name
           with_docker cwd = .error (.invalidName name)) ∧
    (∀ name : String, specIdentGrammar name = true →
       validProjectName name = true ∧
       ∀ project_type view_style database app_name with_docker cwd,
         mkGenerator name project_type view_style database app_name with_docker
           cwd = .ok ⟨name, project_type, view_style, database, app_name,
             with_docker, cwd⟩) := by
  constructor
  · intro name h render fs project_type view_style database app_name with_docker cwd
    have hv : validProjectName name = false := by
      rcases h with rfl | ⟨c, t, hs, hd⟩ | h | ⟨l, r, hs⟩
      · decide
      · exact validProjectName_false_of_leadingDigit name c t hs hd
      · exact validProjectName_false_of_badChar name '/' h (by decide) (by decide)
      · refine validProjectName_false_of_badChar name '.' ?_ (by decide) (by decide)
        rw [hs]
        simp
    simp [createProject, mkGenerator, hv]
  · intro name hg
    have hm : matchesIdentRegex name = true := hg
    have hv : validProjectName name = true := by
      simp [validProjectName, hm]
    refine ⟨hv, ?_⟩
    intro project_type view_style database app_name with_docker cwd
    simp [mkGenerator, hv]

/-- Witness for claim C5: the leading-digit name `1abc` is rejected with
no filesystem effect, and the grammar-conforming name `blog` passes
validation. -/
theorem c5_witness :
    createProject (fun _ => "") ⟨[], []⟩ "1abc" "mvp" "fbv" "sqlite" "core"
        false ["home"] = .error (.invalidName "1abc") ∧
    validProjectName "blog" = true ∧
    mkGenerator "blog" "mvp" "fbv" "sqlite" "core" false ["home"] =
      .ok ⟨"blog", "mvp", "fbv", "sqlite", "core", false, ["home"]⟩ :=
  ⟨c5_name_validation.1 "1abc"
      (Or.inr (Or.inl ⟨'1', ['a', 'b', 'c'], by decide, by decide⟩)) _ _ _ _ _ _ _ _,
   (c5_name_validation.2 "blog" (by decide)).1,
   (c5_name_validation.2 "blog" (by decide)).2 _ _ _ _ _ _⟩

/-- Claim C6.  For any spec whose names are valid identifiers and whose
target directory does not yet exist, the first `generate` succeeds, and
a second `generate` of the same spec fails with the already-exists error
— and, by construction of `generate`, the failing call returns before
any `_write`, so the tree of the first call is untouched (the error
branch performs no filesystem operation). -/
theorem c6_generate_twice (render : Payload → String) (g : Generator) (fs : FS)
    (hp : validProjectName g.project_name = true)
    (ha : validProjectName g.app_name = true)
    (hfresh : FS.existsPath fs (outputDir g) = false) :
    ∃ fs', generate render fs g = .ok fs' ∧
      generate render fs' g = .error .alreadyExists := by
  have hout : outputDir g ≠ [] := by simp [outputDir]
  obtain ⟨fs', hrun, hmono, hanc⟩ :=
    runPlan_ok_of_good render (outputDir g) hout (plan g)
      (plan_good g (valid_goodSeg _ hp) (valid_goodSeg _ ha)) fs
  have hdir : outputDir g ∈ fs'.dirs := by
    have := hanc _ (manage_mem_plan g) (outputDir g)
    simp only [List.dropLast_concat] at this
    exact this (self_mem_ancestorsOf _)
  refine ⟨fs', ?_, ?_⟩
  · simp [generate, hfresh, hrun]
  · have hex : FS.existsPath fs' (outputDir g) = true := by
      simp [FS.existsPath]
      exact Or.inl hdir
    simp [generate, hex]

/-- Witness for claim C6 on a fresh filesystem with the default app
name. -/
theorem c6_witness :
    ∃ fs', generate (fun _ => "") ⟨[], []⟩
        ⟨"blog", "mvp", "fbv", "sqlite", "core", false, ["home", "user"]⟩ =
        .ok fs' ∧
      generate (fun _ => "") fs'
        ⟨"blog", "mvp", "fbv", "sqlite", "core", false, ["home", "user"]⟩ =
        .error .alreadyExists :=
  c6_generate_twice _ _ _ (by decide) (by decide) (by decide)

/-- Claim C7.  The secret token of the generation context has fixed
length 50 (at least 40), every character is drawn from the alphabet
of ASCII letters, digits and punctuation, and the token is determined
injectively by the random draws: two runs whose draw sequences differ at
any of the 50 positions produce different tokens (so fresh randomness
gives a fresh token; the probabilistic never-collide statement itself is
about the random source, not the code). -/
theorem c7_secret_key :
    (∀ g draw, (buildContext g draw).secret_key = genSecretKey draw) ∧
    (∀ draw, (genSecretKey draw).length = 50 ∧ 40 ≤ (genSecretKey draw).length ∧
       ∀ c ∈ (genSecretKey draw).data, c ∈ secretAlphabet) ∧
    (∀ d₁ d₂ : Nat → Fin secretAlphabet.length, ∀ i : Nat, i < 50 →
       d₁ i ≠ d₂ i → genSecretKey d₁ ≠ genSecretKey d₂) := by
  refine ⟨fun g draw => rfl, ?_, ?_⟩
  · intro draw
    refine ⟨by simp [genSecretKey, String.length],
      by simp [genSecretKey, String.length], ?_⟩
    intro c hc
    simp only [genSecretKey, String.data] at hc
    rcases List.mem_map.mp hc with ⟨i, _, rfl⟩
    exact List.get_mem secretAlphabet (draw i).1 (draw i).isLt
  · intro d₁ d₂ i hi hne heq
    have hdata := congrArg String.data heq
    simp only [genSecretKey] at hdata
    have hlen : ((List.range 50).map fun j => secretAlphabet.get (d₁ j)).length = 50 := by
      simp
    have h50 : i < ((List.range 50).map fun j => secretAlphabet.get (d₁ j)).length := by
      rw [hlen]; exact hi
    have := List.getElem_of_eq hdata h50
    simp only [List.getElem_map, List.getElem_range] at this
    have hnd : secretAlphabet.Nodup := by decide
    exact hne ((List.Nodup.get_inj_iff hnd).mp this)

/-- Witness for claim C7: two draw sequences differing at position 0
yield different secret keys. -/
theorem c7_witness :
    drawA 0 ≠ drawB 0 ∧ genSecretKey drawA ≠ genSecretKey drawB :=
  ⟨by decide, c7_secret_key.2.2 drawA drawB 0 (by decide) (by decide)⟩

/-- Claim C8.  Once the core generation has succeeded, the `create`
command exits with status 0 for every outcome of the virtual-environment
bootstrap; a bootstrap failure surfaces only as an echoed warning
message, while a generation failure exits with status 1. -/
theorem c8_venv_failure_does_not_change_exit :
    (∀ fs noVenv env, (cliAfterGenerate (.ok fs) noVenv env).1 = 0) ∧
    (∀ fs, "Failed to create virtual environment" ∈
       (cliAfterGenerate (.ok fs) false ⟨false, true, true, true⟩).2) ∧
    (∀ e, (cliAfterGenerate (.error e) false ⟨true, true, true, true⟩).1 = 1) := by
  refine ⟨fun fs noVenv env => rfl, fun fs => ?_, fun e => rfl⟩
  simp [cliAfterGenerate, create_virtualenv]

/-- Claim C9.  The constructor stores `project_type`, `view_style` and
`database` unvalidated; for the out-of-range `project_type = "API"` the
plan takes the MVP branch for views, URL routing and forms (no
serialization module) while writing no HTML templates and no stylesheet
— a file set that is not the file set of any of the 16 valid
combinations. -/
theorem c9_unvalidated_options :
    (∀ project_type view_style database app_name with_docker cwd,
       mkGenerator "proj" project_type view_style database app_name with_docker
         cwd = .ok ⟨"proj", project_type, view_style, database, app_name,
           with_docker, cwd⟩) ∧
    ((Payload.tpl "app/views_fbv.py.j2", ["core", "views.py"]) ∈ plan gAPI ∧
     (Payload.tpl "app/urls_mvp.py.j2", ["core", "urls.py"]) ∈ plan gAPI ∧
     (Payload.tpl "app/forms.py.j2", ["core", "forms.py"]) ∈ plan gAPI ∧
     ["core", "serializers.py"] ∉ planPaths gAPI ∧
     ["core", "templates", "core", "base.html"] ∉ planPaths gAPI ∧
     ["static", "css", "style.css"] ∉ planPaths gAPI) ∧
    (∀ pt ∈ ["mvp", "api"], ∀ vs ∈ ["fbv", "cbv"],
     ∀ db ∈ ["sqlite", "postgresql"], ∀ dk ∈ [false, true],
       ¬ (planPaths gAPI).Perm
         (planPaths ⟨"proj", pt, vs, db, "core", dk, ["home"]⟩)) := by
  refine ⟨?_, by decide, by decide⟩
  intro project_type view_style database app_name with_docker cwd
  simp [mkGenerator, show validProjectName "proj" = true from by decide]

/-- Witness for claim C9: the `"API"` file set differs from the valid
`api/fbv/sqlite/no-container` combination. -/
theorem c9_witness :
    ¬ (planPaths gAPI).Perm
      (planPaths ⟨"proj", "api", "fbv", "sqlite", "core", false, ["home"]⟩) :=
  c9_unvalidated_options.2.2 "api" (by decide) "fbv" (by decide)
    "sqlite" (by decide) false (by decide)

/-- Claim C10.  When the venv is created and `pip` exists but
`requirements.txt` is absent, `create_virtualenv` skips the dependency
install entirely and still returns `True` — so a `True` return does not
imply dependencies were installed. -/
theorem c10_true_without_install (env : VenvEnv) (h1 : env.venvCmdOk = true)
    (h2 : env.pipExists = true) (h3 : env.reqExists = false) :
    (create_virtualenv env).returned = true ∧
    (create_virtualenv env).installed = false := by
  simp [create_virtualenv, h1, h2, h3]

/-- Witness for claim C10 at the concrete environment where only
`requirements.txt` is missing. -/
theorem c10_witness :
    (create_virtualenv ⟨true, true, false, true⟩).returned = true ∧
    (create_virtualenv ⟨true, true, false, true⟩).installed = false :=
  c10_true_without_install ⟨true, true, false, true⟩ rfl rfl rfl

end DjangoKickstart
